/-
Verification of the leave-management and notification subsystem
(payroll/leavemanagement.py, payroll/utils.py, Tara/consumer.py).

The Python code is shallowly embedded: Django ORM rows become Lean
structures, a "database" is a list of rows, and each view function is a
pure Lean function from the relevant rows and request data to the
persisted rows after the call together with the HTTP response.  An early
`return Response(...)` before `save()` in Python persists nothing, so in
the embedding every error path returns the input row/database unchanged.
-/
import Mathlib

/-! ## Calendar arithmetic

Python `datetime`/`date` values are embedded as civil year/month/day
(plus hour/minute for datetimes).  Subtraction of datetimes (used by
`format_time_style` via `timedelta.days`, which floors) is modelled by
converting to a day number with the standard civil-from-days algorithm
and to total minutes. -/

/-- Day number of a civil date (days since 1970-01-01, Gregorian). -/
def daysFromCivil (y m d : Int) : Int :=
  let y2 : Int := if m ≤ 2 then y - 1 else y
  let era : Int := Int.fdiv y2 400
  let yoe : Int := y2 - era * 400
  let mp : Int := if m > 2 then m - 3 else m + 9
  let doy : Int := Int.fdiv (153 * mp + 2) 5 + d - 1
  let doe : Int := yoe * 365 + Int.fdiv yoe 4 - Int.fdiv yoe 100 + doy
  era * 146097 + doe - 719468

/-- A Python `date`. -/
structure Date where
  year : Int
  month : Int
  day : Int
deriving DecidableEq, Repr

def Date.toDayNumber (d : Date) : Int :=
  daysFromCivil d.year d.month d.day

/-- Python date comparison `a <= b` (lexicographic on valid civil dates). -/
def dateLE (a b : Date) : Bool :=
  a.year < b.year ∨ (a.year = b.year ∧
    (a.month < b.month ∨ (a.month = b.month ∧ a.day ≤ b.day)))

/-- A Python (timezone-aware, here already localised) `datetime`,
to minute precision (the code formats no seconds). -/
structure DateTime where
  year : Int
  month : Int
  day : Int
  hour : Int
  minute : Int
deriving DecidableEq, Repr

/-- Total minutes since the epoch; datetime subtraction is subtraction
of total minutes. -/
def DateTime.totalMinutes (t : DateTime) : Int :=
  daysFromCivil t.year t.month t.day * 1440 + t.hour * 60 + t.minute

/-- Datetime order `a <= b`, as Python compares datetimes. -/
def DateTime.le (a b : DateTime) : Prop :=
  a.totalMinutes ≤ b.totalMinutes

instance : DecidableEq (Option DateTime) := inferInstance

instance (a b : DateTime) : Decidable (a.le b) := by
  unfold DateTime.le; infer_instance

/-- `timedelta.days` of `now - created`: Python floors toward -∞. -/
def timedeltaDays (now created : DateTime) : Int :=
  Int.fdiv (now.totalMinutes - created.totalMinutes) 1440

/-! ## strftime fragments used by the code -/

/-- Zero-pad to two digits (as `%d`, `%M`, `%I` do). -/
def pad2 (n : Int) : String :=
  if 0 ≤ n ∧ n < 10 then "0" ++ toString n else toString n

/-- `%B`: full month name. -/
def monthNameFull (m : Int) : String :=
  if m = 1 then "January" else if m = 2 then "February"
  else if m = 3 then "March" else if m = 4 then "April"
  else if m = 5 then "May" else if m = 6 then "June"
  else if m = 7 then "July" else if m = 8 then "August"
  else if m = 9 then "September" else if m = 10 then "October"
  else if m = 11 then "November" else if m = 12 then "December" else ""

/-- `%b`: abbreviated month name. -/
def monthNameAbbrev (m : Int) : String :=
  if m = 1 then "Jan" else if m = 2 then "Feb"
  else if m = 3 then "Mar" else if m = 4 then "Apr"
  else if m = 5 then "May" else if m = 6 then "Jun"
  else if m = 7 then "Jul" else if m = 8 then "Aug"
  else if m = 9 then "Sep" else if m = 10 then "Oct"
  else if m = 11 then "Nov" else if m = 12 then "Dec" else ""

/-- `%I`: hour on the 12-hour clock (1..12). -/
def hour12 (hour : Int) : Int :=
  if Int.emod hour 12 = 0 then 12 else Int.emod hour 12

/-- `%p`: AM/PM marker. -/
def ampm (hour : Int) : String :=
  if hour < 12 then "AM" else "PM"

/-- `created.strftime("%I:%M %p").lstrip('0')`: stripping the leading
zeros of the zero-padded `%I` leaves the plain decimal of `hour12`. -/
def timeHM (t : DateTime) : String :=
  toString (hour12 t.hour) ++ ":" ++ pad2 t.minute ++ " " ++ ampm t.hour

/-- `created.strftime("%d %B, %Y")`. -/
def dateDMY (t : DateTime) : String :=
  pad2 t.day ++ " " ++ monthNameFull t.month ++ ", " ++ toString t.year

/-- `d.strftime("%d %b %Y")` (on dates, used in messages). -/
def dateDbY (d : Date) : String :=
  pad2 d.day ++ " " ++ monthNameAbbrev d.month ++ " " ++ toString d.year

/-! ## payroll/utils.py : format_time_style -/

/-- The two shapes of dict `format_time_style` returns:
`{"display": s}` or `{"date": d, "time": s}`. -/
inductive TimeView where
  | display (s : String)
  | dated (date : String) (time : String)
deriving DecidableEq, Repr

/-- `format_time_style(timestamp)` from payroll/utils.py, with the
current time `now` passed explicitly.  `timezone.localtime` is the
identity in this single-timezone embedding. -/
def format_time_style (now : DateTime) (timestamp : Option DateTime) :
    Option TimeView :=
  match timestamp with
  | none => none
  | some created =>
    let diffDays := timedeltaDays now created
    if diffDays = 0 then
      some (.display (timeHM created))
    else if diffDays = 1 then
      some (.dated "Yesterday" (timeHM created))
    else
      some (.dated (dateDMY created) (timeHM created))

/-! ## Leave applications (payroll/leavemanagement.py) -/

/-- The status column of a LeaveApplication. -/
inductive LeaveStatus where
  | pending
  | approved
  | rejected
  | cancelled
deriving DecidableEq, Repr

/-- The string stored in the status column (used in error messages). -/
def statusName : LeaveStatus → String
  | .pending => "pending"
  | .approved => "approved"
  | .rejected => "rejected"
  | .cancelled => "cancelled"

/-- A LeaveApplication row.  Employees are identified by the id of
their EmployeeCredentials row, as the Python foreign keys are. -/
structure LeaveApplication where
  id : Nat
  employee : Nat
  reviewer : Option Nat
  cc_to : List Nat
  leave_type : String
  start_date : Date
  end_date : Date
  reason : String
  status : LeaveStatus
  reviewer_comment : String
  rejection_reason : String
  reviewed_on : Option DateTime
  reviewed_at : Option DateTime
deriving DecidableEq, Repr

/-- An HTTP response: DRF `Response(...)` with a status code and the
error or success message of the body. -/
inductive ApiResponse where
  | ok (httpStatus : Nat) (message : String)
  | err (httpStatus : Nat) (message : String)
deriving DecidableEq, Repr

def ApiResponse.isErr : ApiResponse → Bool
  | .ok _ _ => false
  | .err _ _ => true

/-- `timezone.now().date()` as stored by `cancel_leave` into the
`reviewed_on` field: the date part of the current datetime. -/
def dateOnly (t : DateTime) : DateTime :=
  { year := t.year, month := t.month, day := t.day, hour := 0, minute := 0 }

/-- `handle_leave_action(request, leave_id)` (leavemanagement.py
lines 301-357), acting on the fetched row `leave`.  `user` is the
authenticated credentials id, `userHasEmployee` is
`hasattr(user, 'employee')`, `action` is `request.data.get('action')`,
`comment` is `request.data.get('comment', '')`.  Returns the persisted
row after the call (unchanged whenever Python returns before
`leave.save()`) and the response. -/
def handle_leave_action (leave : LeaveApplication) (user : Nat)
    (userHasEmployee : Bool) (action : Option String) (comment : String)
    (now : DateTime) : LeaveApplication × ApiResponse :=
  if ¬ (action = some "approve" ∨ action = some "reject" ∨
        action = some "cancel") then
    (leave, .err 400 "Invalid action. Must be approve, reject, or cancel.")
  else if ¬ userHasEmployee then
    (leave, .err 401 "Invalid employee credentials")
  else if action = some "approve" ∨ action = some "reject" then
    if leave.reviewer ≠ some user ∧ user ∉ leave.cc_to then
      (leave, .err 403 "You are not authorized to perform this action.")
    else if leave.status ≠ .pending then
      (leave, .err 400 ("Cannot " ++ (action.getD "") ++
        " a leave with status " ++ statusName leave.status ++ "."))
    else
      let leave2 := { leave with
        reviewer := some user,
        reviewed_on := some now,
        reviewer_comment := comment }
      if action = some "approve" then
        ({ leave2 with status := .approved },
         .ok 200 "Leave approved successfully.")
      else if comment = "" then
        (leave, .err 400 "Comment is required for rejection.")
      else
        ({ leave2 with status := .rejected },
         .ok 200 "Leave rejected successfully.")
  else
    if leave.employee ≠ user then
      (leave, .err 403 "You can only cancel your own leave.")
    else if leave.status ≠ .pending then
      (leave, .err 400 "Only pending leaves can be cancelled.")
    else
      ({ leave with status := .cancelled },
       .ok 200 "Leave cancelled successfully.")

/-- `reject_leave(request, leave_id)` (leavemanagement.py lines
361-384), acting on the fetched row.  `rejection_reason` is
`request.data.get('rejection_reason')` before the `.get` default is
applied; a missing value defaults to "Rejected by reviewer.". -/
def reject_leave (leave : LeaveApplication) (user : Nat)
    (rejection_reason : Option String) (now : DateTime) :
    LeaveApplication × ApiResponse :=
  if leave.reviewer ≠ some user ∧ user ∉ leave.cc_to then
    (leave, .err 403 "You are not authorized to reject this leave.")
  else if leave.status ≠ .pending then
    (leave, .err 400 ("Cannot reject a leave with status " ++
      statusName leave.status ++ "."))
  else
    ({ leave with
        status := .rejected,
        rejection_reason := rejection_reason.getD "Rejected by reviewer.",
        reviewed_at := some now },
     .ok 200 "Leave application rejected successfully.")

/-- `cancel_leave(request, pk)` (leavemanagement.py lines 387-407),
acting on the fetched row.  The queryset filters `pk` together with
`employee=user`, so a row owned by someone else surfaces as
`DoesNotExist`, i.e. a 404. -/
def cancel_leave (leave : LeaveApplication) (user : Nat)
    (userHasEmployee : Bool) (now : DateTime) :
    LeaveApplication × ApiResponse :=
  if ¬ userHasEmployee then
    (leave, .err 401 "Invalid employee credentials")
  else if leave.employee ≠ user then
    (leave, .err 404 "Leave application not found")
  else if leave.status ≠ .pending then
    (leave, .err 400 "Only pending leaves can be cancelled")
  else
    ({ leave with
        status := .cancelled,
        reviewed_on := some (dateOnly now) },
     .ok 200 "Leave cancelled")

/-! ## Leave notifications and the submission fan-out
(payroll/leavemanagement.py, apply_leave and helpers) -/

/-- A LeaveNotification row.  The `reviewer` column is the addressed
recipient (despite its name it may hold a CC recipient). -/
structure LeaveNotification where
  id : Nat
  leave_application : Nat
  reviewer : Nat
  message : String
  is_read : Bool
  read_at : Option DateTime
  created_at : DateTime
deriving DecidableEq, Repr

/-- Modelled from the spec: the LeaveNotification model lives in
payroll/models.py, which is not among the source files; per the spec's
data-model section, notifications are created unread (`is_read` false,
`read_at` null) with `created_at` the creation time.  This is the row
built by `LeaveNotification(leave_application=..., reviewer=...,
message=...)` in `apply_leave` before `bulk_create`. -/
def newLeaveNotification (id leave_application reviewer : Nat)
    (message : String) (created_at : DateTime) : LeaveNotification :=
  { id := id, leave_application := leave_application, reviewer := reviewer,
    message := message, is_read := false, read_at := none,
    created_at := created_at }

/-- `get_notification_message` (leavemanagement.py lines 136-143). -/
def get_notification_message (leave : LeaveApplication)
    (employee_name employee_designation employee_department : String)
    (days : Int) : String :=
  employee_name ++ ", " ++ employee_designation ++ " from the " ++
  employee_department ++ " department, has requested " ++ toString days ++
  " day" ++ (if days > 1 then "s" else "") ++ " of " ++ leave.leave_type ++
  ". The leave period is from " ++ dateDbY leave.start_date ++ " to " ++
  dateDbY leave.end_date ++ ". Reason for leave: " ++ leave.reason

/-- `recipients_to_notify = set(cc_recipients); add(reviewer)`
(leavemanagement.py lines 211-213): the deduplicated CC list with the
reviewer inserted if not already present. -/
def recipients_to_notify (reviewer : Option Nat) (cc_recipients : List Nat) :
    List Nat :=
  match reviewer with
  | some r => (cc_recipients.dedup).insert r
  | none => cc_recipients.dedup

/-- The `LeaveNotification(...) for recipient in recipients_to_notify`
comprehension plus `bulk_create` (lines 216-224): one row per recipient,
all with the same message; `bulk_create` assigns consecutive ids. -/
def build_notifications (leave : LeaveApplication) (recipients : List Nat)
    (message : String) (idBase : Nat) (now : DateTime) :
    List LeaveNotification :=
  recipients.enum.map fun p =>
    newLeaveNotification (idBase + p.1) leave.id p.2 message now

/-- The employee profile data read off the Employee row (a model whose
source is elsewhere); `None` designation/department render as "N/A". -/
structure EmployeeProfile where
  first_name : String
  last_name : String
  designation : Option String
  department : Option String
deriving DecidableEq, Repr

/-- Lines 193-224 of `apply_leave`: given the saved leave, compute the
recipient set and the notification rows.  Returns `none` when
`not (reviewer or cc_recipients.exists())` raises `ValueError` (which
the surrounding `transaction.atomic` turns into a full rollback). -/
def fanout (leave : LeaveApplication) (profile : EmployeeProfile)
    (idBase : Nat) (now : DateTime) : Option (List LeaveNotification) :=
  if leave.reviewer = none ∧ leave.cc_to = [] then
    none
  else
    let employee_name := profile.first_name ++ " " ++ profile.last_name
    let employee_designation := profile.designation.getD "N/A"
    let employee_department := profile.department.getD "N/A"
    let days := leave.end_date.toDayNumber - leave.start_date.toDayNumber + 1
    let detailed_message := get_notification_message leave employee_name
      employee_designation employee_department days
    some (build_notifications leave
      (recipients_to_notify leave.reviewer leave.cc_to) detailed_message
      idBase now)

/-- An EmployeeReportingManager row (keyed by employee id). -/
structure RMConfig where
  reporting_manager : Nat
  head_of_department : Option Nat
deriving DecidableEq, Repr

/-- The database tables `apply_leave` touches.  `reportingManagers` maps
an employee id to its EmployeeReportingManager row; `employeeCreds`
maps an employee id to the id of its EmployeeCredentials row. -/
structure Db where
  reportingManagers : List (Nat × RMConfig)
  employeeCreds : List (Nat × Nat)
  leaveApplications : List LeaveApplication
  leaveNotifications : List LeaveNotification
deriving DecidableEq, Repr

/-- `apply_leave(request)` (leavemanagement.py lines 145-266).
`userCredsId`/`userEmployeeId` identify the authenticated
EmployeeCredentials row and its Employee; `bodyEmployee` is
`request.data.get('employee')` (compared via `str(...)`);
`serializerValid` stands for `LeaveApplicationSerializer.is_valid()`
(serializers.py is not among the source files); `newLeaveId` and
`newNotifIdBase` are the primary keys the store assigns.  The websocket
pushes (lines 227-253) carry no persisted state and are not modelled
here; the returned database is the state after commit or rollback. -/
def apply_leave (db : Db) (userCredsId userEmployeeId : Nat)
    (profile : EmployeeProfile) (bodyEmployee : String)
    (start_date end_date : Date) (leave_type reason : String)
    (serializerValid : Bool) (newLeaveId newNotifIdBase : Nat)
    (now : DateTime) : Db × ApiResponse :=
  if toString userCredsId ≠ bodyEmployee then
    (db, .err 403 "You are not allowed to apply leave for another employee.")
  else
    match db.reportingManagers.lookup userEmployeeId with
    | none =>
      (db, .err 400 "Reviewing manager info not configured for this employee.")
    | some reviewing_team =>
      match db.employeeCreds.lookup reviewing_team.reporting_manager with
      | none =>
        -- EmployeeCredentials.DoesNotExist escapes to the outer handler
        (db, .err 500 "Failed to process leave application")
      | some manager_creds =>
        let cc_list : List Nat :=
          match reviewing_team.head_of_department with
          | some hod =>
            match db.employeeCreds.lookup hod with
            | some hod_creds => [hod_creds]
            | none => []
          | none => []
        if ¬ serializerValid then
          (db, .err 400 "serializer errors")
        else
          let leave : LeaveApplication :=
            { id := newLeaveId, employee := userCredsId,
              reviewer := some manager_creds, cc_to := cc_list,
              leave_type := leave_type, start_date := start_date,
              end_date := end_date, reason := reason, status := .pending,
              reviewer_comment := "", rejection_reason := "",
              reviewed_on := none, reviewed_at := none }
          match fanout leave profile newNotifIdBase now with
          | none =>
            (db, .err 500 "Failed to process leave application")
          | some notifs =>
            ({ db with
                leaveApplications := db.leaveApplications ++ [leave],
                leaveNotifications := db.leaveNotifications ++ notifs },
             .ok 201 "Leave application submitted successfully.")

/-! ## The websocket consumer (Tara/consumer.py,
LeaveNotificationConsumer) -/

/-- The notification dict built per row by `get_all_notifications`
(consumer.py lines 129-154), restricted to the fields that come from
the LeaveNotification row itself; the joined leave/employee display
fields come from models whose source is elsewhere and carry no
per-notification state. -/
structure NotificationView where
  notification_id : Nat
  message : String
  is_read : Bool
  created_at : Option TimeView
  read_at : Option TimeView
deriving DecidableEq, Repr

/-- The `last_read_notification` object of a mark-read push. -/
structure LastRead where
  notification_id : Nat
  read_at : Option TimeView
deriving DecidableEq, Repr

/-- The `leave_notifications_update` payload pushed to a group. -/
structure UpdatePayload where
  type : String
  notifications : List NotificationView
  unread_count : Nat
  last_read_notification : Option LastRead
deriving DecidableEq, Repr

/-- An outbound websocket effect of `receive`: either
`channel_layer.group_send(group, payload)` or a direct `self.send`
of an error dict to the requesting connection only. -/
inductive WsSend where
  | group (group : String) (payload : UpdatePayload)
  | directError (message : String)
deriving DecidableEq, Repr

/-- `get_notification(notification_id)` (consumer.py lines 159-171):
recipient-scoped `.get(id=..., reviewer_id=self.employee_id)`;
`DoesNotExist` is caught and returned as `None`. -/
def get_notification (store : List LeaveNotification)
    (employee_id notification_id : Nat) : Option LeaveNotification :=
  (store.filter fun n =>
    n.id == notification_id && n.reviewer == employee_id).head?

/-- `mark_notification_read(notification)` (consumer.py lines 173-179):
sets `is_read` and `read_at` together and saves those two fields. -/
def mark_notification_read (now : DateTime) (n : LeaveNotification) :
    LeaveNotification :=
  { n with is_read := true, read_at := some now }

/-- The store after `mark_notification_read` saves the row: the row
with that primary key is replaced. -/
def mark_in_store (store : List LeaveNotification) (nid : Nat)
    (now : DateTime) : List LeaveNotification :=
  store.map fun m => if m.id = nid then mark_notification_read now m else m

/-- `.order_by('-created_at')`: newest first (insertion sort). -/
def insertByCreatedDesc (n : LeaveNotification) :
    List LeaveNotification → List LeaveNotification
  | [] => [n]
  | m :: ms =>
    if m.created_at.totalMinutes ≤ n.created_at.totalMinutes then
      n :: m :: ms
    else
      m :: insertByCreatedDesc n ms

def sortByCreatedDesc : List LeaveNotification → List LeaveNotification
  | [] => []
  | n :: ns => insertByCreatedDesc n (sortByCreatedDesc ns)

/-- One row of `get_all_notifications` output (consumer.py lines
125-155): note `read_at` is passed to `format_time_style` directly, so
an unread row formats to null. -/
def notificationView (now : DateTime) (n : LeaveNotification) :
    NotificationView :=
  { notification_id := n.id, message := n.message, is_read := n.is_read,
    created_at := format_time_style now (some n.created_at),
    read_at := format_time_style now n.read_at }

/-- `get_all_notifications()` (consumer.py lines 108-157): all rows
addressed to this employee, newest first, formatted. -/
def get_all_notifications (store : List LeaveNotification)
    (employee_id : Nat) (now : DateTime) : List NotificationView :=
  (sortByCreatedDesc (store.filter fun n => n.reviewer == employee_id)).map
    (notificationView now)

/-- `get_unread_count()` (consumer.py lines 181-187). -/
def get_unread_count (store : List LeaveNotification)
    (employee_id : Nat) : Nat :=
  (store.filter fun n => n.reviewer == employee_id && !n.is_read).length

/-- `receive(text_data)` (consumer.py lines 55-94) for an
already-parsed client message: `msgType` is `data.get('type')`,
`notification_id` is `data.get('notification_id')`.  Returns the store
after the call and the outbound sends, in order.  When the
recipient-scoped lookup finds nothing, `if notification:` falls
through: no mutation and no send at all.  The `except` branch (a store
error) is the only producer of a direct `{"type": "error"}` reply; the
pure store model raises nothing, so that branch is unreachable here. -/
def receive (store : List LeaveNotification) (employee_id : Nat)
    (msgType : String) (notification_id : Nat) (now : DateTime) :
    List LeaveNotification × List WsSend :=
  if msgType ≠ "mark_read" then
    (store, [])
  else
    match get_notification store employee_id notification_id with
    | none => (store, [])
    | some n =>
      let store2 := mark_in_store store n.id now
      let notifications_data := get_all_notifications store2 employee_id now
      let unread_count := get_unread_count store2 employee_id
      let read_time := format_time_style now (some now)
      let payload : UpdatePayload :=
        { type := "leave_notifications_update",
          notifications := notifications_data,
          unread_count := unread_count,
          last_read_notification :=
            some { notification_id := notification_id,
                   read_at := read_time } }
      (store2, [.group ("user_" ++ toString employee_id) payload])

/-! ## Listing my leaves for the financial year
(leavemanagement.py lines 269-298) -/

/-- `current_financial_year_range()` with `date.today()` explicit. -/
def current_financial_year_range (today : Date) : Date × Date :=
  if today.month < 4 then
    ({ year := today.year - 1, month := 4, day := 1 },
     { year := today.year, month := 3, day := 31 })
  else
    ({ year := today.year, month := 4, day := 1 },
     { year := today.year + 1, month := 3, day := 31 })

/-- `get_leave_applications(request)` (lines 281-298): the caller's own
applications whose `start_date` falls inside the current financial
year. -/
def get_leave_applications (db : Db) (user : Nat)
    (userHasEmployee : Bool) (today : Date) :
    Except ApiResponse (List LeaveApplication) :=
  if ¬ userHasEmployee then
    .error (.err 401 "Invalid employee credentials")
  else
    let range := current_financial_year_range today
    .ok (db.leaveApplications.filter fun l =>
      l.employee == user && dateLE range.1 l.start_date &&
      dateLE l.start_date range.2)

/-- The spec's LeaveNotification invariant: `read_at` is set iff
`is_read`, and a set `read_at` is at or after `created_at`. -/
def notificationInvariant (n : LeaveNotification) : Prop :=
  (n.read_at.isSome ↔ n.is_read = true) ∧
  ∀ t, n.read_at = some t → n.created_at.le t

/-! ## Theorems -/

theorem timedeltaDays_eq_ediv (now created : DateTime) :
    timedeltaDays now created =
      (now.totalMinutes - created.totalMinutes) / 1440 := by
  unfold timedeltaDays
  exact Int.fdiv_eq_ediv _ (by norm_num)

theorem hour12_bounds (h : Int) : 1 ≤ hour12 h ∧ hour12 h ≤ 12 := by
  unfold hour12
  have h2 : 0 ≤ Int.emod h 12 := Int.emod_nonneg _ (by norm_num)
  have h3 : Int.emod h 12 < 12 := Int.emod_lt_of_pos _ (by norm_num)
  split <;> omega

theorem timeHM_head_ne_zero (t : DateTime) :
    (timeHM t).data.head? ≠ some ('0' : Char) := by
  obtain ⟨ha, hb⟩ := hour12_bounds t.hour
  unfold timeHM
  set k := hour12 t.hour with hk
  clear_value k
  interval_cases k <;> (simp [String.data_append]; decide)

/-- C6, as written, is false on the code: `format_time_style` branches
on `(now - created).days`, the number of whole 24-hour periods elapsed,
not on calendar days.  Concretely, with now = 2025-03-10 08:00 and
created = 2025-03-09 23:00 the timestamp lies exactly one calendar day
before now (their civil day numbers differ by one), yet the function
returns the same-day shape `{"display": "11:00 PM"}` instead of
`{"date": "Yesterday", ...}`. -/
theorem spec_C6_counterexample :
    daysFromCivil 2025 3 9 + 1 = daysFromCivil 2025 3 10 ∧
    format_time_style ⟨2025, 3, 10, 8, 0⟩ (some ⟨2025, 3, 9, 23, 0⟩) =
      some (.display "11:00 PM") ∧
    ∀ d s, format_time_style ⟨2025, 3, 10, 8, 0⟩ (some ⟨2025, 3, 9, 23, 0⟩) ≠
      some (.dated d s) := by
  refine ⟨by decide, by decide, ?_⟩
  intro d s h
  rw [show format_time_style ⟨2025, 3, 10, 8, 0⟩ (some ⟨2025, 3, 9, 23, 0⟩) =
      some (.display "11:00 PM") from by decide] at h
  exact TimeView.noConfusion (Option.some.inj h)

/-- C6 (amended): `format_time_style` returns null for a null
timestamp; it returns the `{"display": "h:mm AM/PM"}` shape (hour
without leading zero) when `now - created` is in [0h, 24h), the
`{"date": "Yesterday", "time": ...}` shape when it is in [24h, 48h),
and the `{"date": "DD Month, YYYY", "time": ...}` shape otherwise
(including timestamps in the future) — the branch is chosen by whole
24-hour periods elapsed, not by calendar day. -/
theorem spec_C6_format_time_style (now created : DateTime) :
    format_time_style now none = none ∧
    ((0 ≤ now.totalMinutes - created.totalMinutes ∧
      now.totalMinutes - created.totalMinutes < 1440) →
      format_time_style now (some created) =
        some (.display (timeHM created))) ∧
    ((1440 ≤ now.totalMinutes - created.totalMinutes ∧
      now.totalMinutes - created.totalMinutes < 2880) →
      format_time_style now (some created) =
        some (.dated "Yesterday" (timeHM created))) ∧
    ((now.totalMinutes - created.totalMinutes < 0 ∨
      2880 ≤ now.totalMinutes - created.totalMinutes) →
      format_time_style now (some created) =
        some (.dated (dateDMY created) (timeHM created))) ∧
    (timeHM created).data.head? ≠ some ('0' : Char) := by
  have hd := timedeltaDays_eq_ediv now created
  refine ⟨rfl, ?_, ?_, ?_, timeHM_head_ne_zero created⟩
  · intro h
    have h0 : timedeltaDays now created = 0 := by rw [hd]; omega
    simp [format_time_style, h0]
  · intro h
    have h1 : timedeltaDays now created = 1 := by rw [hd]; omega
    simp [format_time_style, h1]
  · intro h
    have h2 : timedeltaDays now created ≠ 0 ∧ timedeltaDays now created ≠ 1 := by
      rw [hd]; omega
    simp [format_time_style, h2.1, h2.2]

theorem spec_C6_witness :
    (0 ≤ (DateTime.totalMinutes ⟨2025, 3, 10, 8, 0⟩ -
          DateTime.totalMinutes ⟨2025, 3, 10, 7, 50⟩) ∧
     (DateTime.totalMinutes ⟨2025, 3, 10, 8, 0⟩ -
      DateTime.totalMinutes ⟨2025, 3, 10, 7, 50⟩) < 1440) ∧
    format_time_style ⟨2025, 3, 10, 8, 0⟩ (some ⟨2025, 3, 10, 7, 50⟩) =
      some (.display (timeHM ⟨2025, 3, 10, 7, 50⟩)) :=
  ⟨by decide,
   (spec_C6_format_time_style ⟨2025, 3, 10, 8, 0⟩ ⟨2025, 3, 10, 7, 50⟩).2.1
     (by decide)⟩

/-- C5, as written, is false on the code: when the recipient-scoped
lookup finds no notification (here id 5 belongs to recipient 2 and the
requester is employee 1), `get_notification` returns `None`, the
`if notification:` guard falls through, and the consumer sends nothing
at all — no `{type: "error"}` reply is delivered to the requesting
connection.  The non-mutation and no-leak parts of the claim do hold. -/
theorem spec_C5_counterexample :
    receive [⟨5, 1, 2, "m", false, none, ⟨2025, 1, 1, 9, 0⟩⟩] 1 "mark_read" 5
        ⟨2025, 1, 2, 9, 0⟩ =
      ([⟨5, 1, 2, "m", false, none, ⟨2025, 1, 1, 9, 0⟩⟩], []) ∧
    ∀ s, ([] : List WsSend) ≠ [WsSend.directError s] := by
  refine ⟨by decide, ?_⟩
  intro s h
  exact List.noConfusion h

/-- C5 (amended): a `mark_read` request whose notification_id does not
identify a notification addressed to the requesting recipient
(including an id belonging to another recipient) mutates nothing and is
silently ignored: the consumer sends no message of any kind — neither
to other group members nor to the requester (not even an error reply;
only a raised store exception would produce one).  The not-found case
is thus indistinguishable from forbidden, and the connection does not
crash. -/
theorem spec_C5_mark_read_not_found (store : List LeaveNotification)
    (employee_id notification_id : Nat) (now : DateTime)
    (h : get_notification store employee_id notification_id = none) :
    receive store employee_id "mark_read" notification_id now =
      (store, []) := by
  unfold receive
  simp [h]

theorem spec_C5_witness :
    get_notification [⟨5, 1, 2, "m", false, none, ⟨2025, 1, 1, 9, 0⟩⟩] 1 5 =
      none ∧
    receive [⟨5, 1, 2, "m", false, none, ⟨2025, 1, 1, 9, 0⟩⟩] 1 "mark_read" 5
        ⟨2025, 1, 2, 9, 0⟩ =
      ([⟨5, 1, 2, "m", false, none, ⟨2025, 1, 1, 9, 0⟩⟩], []) :=
  ⟨by decide,
   spec_C5_mark_read_not_found
     [⟨5, 1, 2, "m", false, none, ⟨2025, 1, 1, 9, 0⟩⟩] 1 5 ⟨2025, 1, 2, 9, 0⟩
     (by decide)⟩

/-- C7: marking a notification read is idempotent — after a first call
at `t1` and a second at `t2 ≥ t1`, `is_read` is true after both calls,
`read_at` is set to `t2 ≥ t1` (re-setting `read_at` is acceptable: the
second call is an ordinary successful update, not an error — the model
function is total and returns the updated row). -/
theorem spec_C7_mark_read_idempotent (n : LeaveNotification)
    (t1 t2 : DateTime) (h : t1.le t2) :
    (mark_notification_read t1 n).is_read = true ∧
    (mark_notification_read t2 (mark_notification_read t1 n)).is_read = true ∧
    (mark_notification_read t2 (mark_notification_read t1 n)).read_at =
      some t2 ∧
    (∀ r, (mark_notification_read t2 (mark_notification_read t1 n)).read_at =
      some r → t1.le r) := by
  refine ⟨rfl, rfl, rfl, ?_⟩
  intro r hr
  cases Option.some.inj hr
  exact h

theorem spec_C7_witness :
    DateTime.le ⟨2025, 1, 1, 9, 0⟩ ⟨2025, 1, 1, 9, 5⟩ ∧
    (mark_notification_read ⟨2025, 1, 1, 9, 5⟩
      (mark_notification_read ⟨2025, 1, 1, 9, 0⟩
        ⟨5, 1, 2, "m", false, none, ⟨2025, 1, 1, 8, 0⟩⟩)).read_at =
      some ⟨2025, 1, 1, 9, 5⟩ :=
  ⟨by decide,
   (spec_C7_mark_read_idempotent ⟨5, 1, 2, "m", false, none, ⟨2025, 1, 1, 8, 0⟩⟩
     ⟨2025, 1, 1, 9, 0⟩ ⟨2025, 1, 1, 9, 5⟩ (by decide)).2.2.1⟩

/-- C8: notifications are created unread with null `read_at` (both at
the constructor and throughout the submission fan-out), and `mark_read`
sets `is_read` and `read_at` together; each operation establishes the
invariant that `read_at` is set iff `is_read`, with `read_at` at or
after `created_at` (marking happens at a time `now ≥ created_at`). -/
theorem spec_C8_read_invariant :
    (∀ id la r msg t, notificationInvariant (newLeaveNotification id la r msg t)) ∧
    (∀ n now, n.created_at.le now →
      notificationInvariant (mark_notification_read now n)) ∧
    (∀ leave profile idBase now notifs,
      fanout leave profile idBase now = some notifs →
      ∀ n ∈ notifs, notificationInvariant n) := by
  have hnew : ∀ id la r msg t,
      notificationInvariant (newLeaveNotification id la r msg t) := by
    intro id la r msg t
    constructor
    · simp [newLeaveNotification]
    · intro t2 h2
      simp [newLeaveNotification] at h2
  refine ⟨hnew, ?_, ?_⟩
  · intro n now hle
    constructor
    · simp [mark_notification_read]
    · intro t2 h2
      simp [mark_notification_read] at h2
      cases h2
      exact hle
  · intro leave profile idBase now notifs hfan n hn
    unfold fanout at hfan
    split at hfan
    · exact Option.noConfusion hfan
    · cases Option.some.inj hfan
      unfold build_notifications at hn
      obtain ⟨p, hp, rfl⟩ := List.mem_map.mp hn
      exact hnew _ _ _ _ _

theorem spec_C8_witness :
    DateTime.le ⟨2025, 1, 1, 8, 0⟩ ⟨2025, 1, 1, 9, 0⟩ ∧
    notificationInvariant (mark_notification_read ⟨2025, 1, 1, 9, 0⟩
      ⟨5, 1, 2, "m", false, none, ⟨2025, 1, 1, 8, 0⟩⟩) :=
  ⟨by decide,
   spec_C8_read_invariant.2.1 ⟨5, 1, 2, "m", false, none, ⟨2025, 1, 1, 8, 0⟩⟩
     ⟨2025, 1, 1, 9, 0⟩ (by decide)⟩

/-- C9: when the recipient-scoped lookup succeeds, `receive` marks the
row read and emits exactly one send: a group send to the requesting
recipient's own group `user_<id>` (and to no other group), whose
payload has type `leave_notifications_update`, carries the full
recomputed notification list and unread count for the updated store,
and whose `last_read_notification` names the marked notification id
with the formatted read time; in the updated store the marked row is
read with `read_at = now`. -/
theorem spec_C9_mark_read_push (store : List LeaveNotification)
    (employee_id notification_id : Nat) (now : DateTime)
    (n : LeaveNotification)
    (h : get_notification store employee_id notification_id = some n) :
    receive store employee_id "mark_read" notification_id now =
      (mark_in_store store n.id now,
       [.group ("user_" ++ toString employee_id)
          { type := "leave_notifications_update",
            notifications :=
              get_all_notifications (mark_in_store store n.id now)
                employee_id now,
            unread_count :=
              get_unread_count (mark_in_store store n.id now) employee_id,
            last_read_notification :=
              some { notification_id := notification_id,
                     read_at := format_time_style now (some now) } }]) ∧
    (∀ m ∈ mark_in_store store n.id now,
      m.id = n.id → m.is_read = true ∧ m.read_at = some now) := by
  constructor
  · unfold receive
    simp [h]
  · intro m hm hid
    unfold mark_in_store at hm
    obtain ⟨m0, hm0, hfm⟩ := List.mem_map.mp hm
    by_cases hc : m0.id = n.id
    · rw [if_pos hc] at hfm
      cases hfm
      exact ⟨rfl, rfl⟩
    · rw [if_neg hc] at hfm
      cases hfm
      exact absurd hid hc

theorem spec_C9_witness :
    receive [⟨5, 1, 2, "m", false, none, ⟨2025, 1, 1, 9, 0⟩⟩] 2 "mark_read" 5
        ⟨2025, 1, 1, 10, 0⟩ =
      (mark_in_store [⟨5, 1, 2, "m", false, none, ⟨2025, 1, 1, 9, 0⟩⟩] 5
         ⟨2025, 1, 1, 10, 0⟩,
       [.group "user_2"
          { type := "leave_notifications_update",
            notifications :=
              get_all_notifications
                (mark_in_store [⟨5, 1, 2, "m", false, none, ⟨2025, 1, 1, 9, 0⟩⟩]
                  5 ⟨2025, 1, 1, 10, 0⟩) 2 ⟨2025, 1, 1, 10, 0⟩,
            unread_count :=
              get_unread_count
                (mark_in_store [⟨5, 1, 2, "m", false, none, ⟨2025, 1, 1, 9, 0⟩⟩]
                  5 ⟨2025, 1, 1, 10, 0⟩) 2,
            last_read_notification :=
              some { notification_id := 5,
                     read_at := format_time_style ⟨2025, 1, 1, 10, 0⟩
                       (some ⟨2025, 1, 1, 10, 0⟩) } }]) :=
  (spec_C9_mark_read_push [⟨5, 1, 2, "m", false, none, ⟨2025, 1, 1, 9, 0⟩⟩] 2 5
    ⟨2025, 1, 1, 10, 0⟩ ⟨5, 1, 2, "m", false, none, ⟨2025, 1, 1, 9, 0⟩⟩
    (by decide)).1

/-- C1: across all three mutation endpoints, a successful call starts
from a `pending` application and moves it to `approved`, `rejected` or
`cancelled`; any attempt on a non-pending application returns an error
response and leaves the stored row (in particular its status) exactly
as it was; and an attempt that passes the endpoint's preceding guards
(valid action, valid credentials, authorization/ownership) fails on a
non-pending application precisely with the 400 state-conflict error. -/
theorem spec_C1_status_transitions (leave : LeaveApplication) (user : Nat)
    (he : Bool) (action : Option String) (comment : String)
    (rr : Option String) (now : DateTime) :
    (∀ l2 s m,
      handle_leave_action leave user he action comment now = (l2, .ok s m) →
      leave.status = .pending ∧
      (l2.status = .approved ∨ l2.status = .rejected ∨
       l2.status = .cancelled)) ∧
    (∀ l2 s m, reject_leave leave user rr now = (l2, .ok s m) →
      leave.status = .pending ∧ l2.status = .rejected) ∧
    (∀ l2 s m, cancel_leave leave user he now = (l2, .ok s m) →
      leave.status = .pending ∧ l2.status = .cancelled) ∧
    (leave.status ≠ .pending →
      (handle_leave_action leave user he action comment now).1 = leave ∧
      (handle_leave_action leave user he action comment now).2.isErr = true ∧
      (reject_leave leave user rr now).1 = leave ∧
      (reject_leave leave user rr now).2.isErr = true ∧
      (cancel_leave leave user he now).1 = leave ∧
      (cancel_leave leave user he now).2.isErr = true) ∧
    (leave.status ≠ .pending →
      (action = some "approve" ∨ action = some "reject") → he = true →
      (leave.reviewer = some user ∨ user ∈ leave.cc_to) →
      (handle_leave_action leave user he action comment now).2 =
        .err 400 ("Cannot " ++ (action.getD "") ++ " a leave with status " ++
          statusName leave.status ++ ".")) ∧
    (leave.status ≠ .pending →
      (leave.reviewer = some user ∨ user ∈ leave.cc_to) →
      (reject_leave leave user rr now).2 =
        .err 400 ("Cannot reject a leave with status " ++
          statusName leave.status ++ ".")) ∧
    (leave.status ≠ .pending → he = true → leave.employee = user →
      (cancel_leave leave user he now).2 =
        .err 400 "Only pending leaves can be cancelled") := by
  refine ⟨?_, ?_, ?_, ?_, ?_, ?_, ?_⟩
  · intro l2 s m heq
    unfold handle_leave_action at heq
    split_ifs at heq with h1 h2 h3 h4 h5 h6 h7 h8 h9 <;>
      injection heq with hl hr <;> try exact ApiResponse.noConfusion hr
    · subst hl
      exact ⟨not_not.mp h5, Or.inl rfl⟩
    · subst hl
      exact ⟨not_not.mp h5, Or.inr (Or.inl rfl)⟩
    · subst hl
      exact ⟨not_not.mp h9, Or.inr (Or.inr rfl)⟩
  · intro l2 s m heq
    unfold reject_leave at heq
    split_ifs at heq with h1 h2 <;>
      injection heq with hl hr <;> try exact ApiResponse.noConfusion hr
    subst hl
    exact ⟨not_not.mp h2, rfl⟩
  · intro l2 s m heq
    unfold cancel_leave at heq
    split_ifs at heq with h1 h2 h3 <;>
      injection heq with hl hr <;> try exact ApiResponse.noConfusion hr
    subst hl
    exact ⟨not_not.mp h3, rfl⟩
  · intro hnp
    refine ⟨?_, ?_, ?_, ?_, ?_, ?_⟩ <;>
      first
        | (unfold handle_leave_action; split_ifs <;> simp_all [ApiResponse.isErr])
        | (unfold reject_leave; split_ifs <;> simp_all [ApiResponse.isErr])
        | (unfold cancel_leave; split_ifs <;> simp_all [ApiResponse.isErr])
  · intro hnp hact hhe hauth
    unfold handle_leave_action
    have hvalid : action = some "approve" ∨ action = some "reject" ∨
        action = some "cancel" := by
      rcases hact with h | h
      · exact Or.inl h
      · exact Or.inr (Or.inl h)
    rw [if_neg (not_not.mpr hvalid), if_neg (by simp [hhe]),
      if_pos hact, if_neg (by
        intro hcon
        rcases hauth with h | h
        · exact hcon.1 h
        · exact hcon.2 h),
      if_pos hnp]
  · intro hnp hauth
    unfold reject_leave
    rw [if_neg (by
        intro hcon
        rcases hauth with h | h
        · exact hcon.1 h
        · exact hcon.2 h),
      if_pos hnp]
  · intro hnp hhe hown
    unfold cancel_leave
    rw [if_neg (by simp [hhe]), if_neg (by simp [hown]), if_pos hnp]

theorem spec_C1_witness :
    (LeaveStatus.approved ≠ LeaveStatus.pending) ∧
    (handle_leave_action
      ⟨1, 7, some 3, [], "Casual Leave", ⟨2025, 9, 15⟩, ⟨2025, 9, 17⟩, "r",
       .approved, "", "", none, none⟩ 3 true (some "approve") ""
      ⟨2025, 9, 18, 9, 0⟩).2 =
      .err 400 "Cannot approve a leave with status approved." :=
  ⟨by decide,
   (spec_C1_status_transitions
     ⟨1, 7, some 3, [], "Casual Leave", ⟨2025, 9, 15⟩, ⟨2025, 9, 17⟩, "r",
      .approved, "", "", none, none⟩ 3 true (some "approve") "" none
     ⟨2025, 9, 18, 9, 0⟩).2.2.2.2.1 (by decide) (Or.inl rfl) rfl
     (Or.inl rfl)⟩

/-- C2, as written, is false on the code: the standalone `reject_leave`
endpoint does not require a comment.  With a pending application whose
reviewer is user 1, a reject request by user 1 carrying no
`rejection_reason` succeeds (HTTP 200), persists status `rejected`, and
substitutes the default reason "Rejected by reviewer.". -/
theorem spec_C2_counterexample :
    (reject_leave
      ⟨1, 7, some 1, [], "Casual Leave", ⟨2025, 9, 15⟩, ⟨2025, 9, 17⟩, "r",
       .pending, "", "", none, none⟩ 1 none ⟨2025, 9, 16, 9, 0⟩).2 =
      .ok 200 "Leave application rejected successfully." ∧
    (reject_leave
      ⟨1, 7, some 1, [], "Casual Leave", ⟨2025, 9, 15⟩, ⟨2025, 9, 17⟩, "r",
       .pending, "", "", none, none⟩ 1 none ⟨2025, 9, 16, 9, 0⟩).1.status =
      .rejected ∧
    (reject_leave
      ⟨1, 7, some 1, [], "Casual Leave", ⟨2025, 9, 15⟩, ⟨2025, 9, 17⟩, "r",
       .pending, "", "", none, none⟩ 1 none
      ⟨2025, 9, 16, 9, 0⟩).1.rejection_reason = "Rejected by reviewer." := by
  refine ⟨by decide, by decide, by decide⟩

/-- C2 (amended): only the `handle_leave_action` endpoint enforces the
comment requirement — there, a reject with an empty comment always
returns an error and persists nothing, whatever the application's state
or the caller's authorization.  The standalone `reject_leave` endpoint
instead accepts a missing rejection_reason, defaulting it to "Rejected
by reviewer." and completing the rejection. -/
theorem spec_C2_reject_comment (leave : LeaveApplication) (user : Nat)
    (he : Bool) (now : DateTime) :
    ((handle_leave_action leave user he (some "reject") "" now).1 = leave ∧
     (handle_leave_action leave user he (some "reject") "" now).2.isErr =
       true) ∧
    (leave.status = .pending →
     (leave.reviewer = some user ∨ user ∈ leave.cc_to) →
     (reject_leave leave user none now).2 =
       .ok 200 "Leave application rejected successfully." ∧
     (reject_leave leave user none now).1.status = .rejected ∧
     (reject_leave leave user none now).1.rejection_reason =
       "Rejected by reviewer.") := by
  constructor
  · unfold handle_leave_action
    split_ifs <;> simp_all [ApiResponse.isErr]
  · intro hp hauth
    unfold reject_leave
    rw [if_neg (by
        intro hcon
        rcases hauth with h | h
        · exact hcon.1 h
        · exact hcon.2 h),
      if_neg (not_not.mpr hp)]
    exact ⟨rfl, rfl, rfl⟩

theorem spec_C2_witness :
    (LeaveStatus.pending = LeaveStatus.pending) ∧
    (reject_leave
      ⟨1, 7, some 1, [], "Casual Leave", ⟨2025, 9, 15⟩, ⟨2025, 9, 17⟩, "r",
       .pending, "", "", none, none⟩ 1 none ⟨2025, 9, 16, 9, 0⟩).1.status =
      .rejected :=
  ⟨rfl,
   ((spec_C2_reject_comment
     ⟨1, 7, some 1, [], "Casual Leave", ⟨2025, 9, 15⟩, ⟨2025, 9, 17⟩, "r",
      .pending, "", "", none, none⟩ 1 true ⟨2025, 9, 16, 9, 0⟩).2 rfl
     (Or.inl rfl)).2.1⟩

theorem build_notifications_map_reviewer (leave : LeaveApplication)
    (recipients : List Nat) (msg : String) (idBase : Nat) (now : DateTime) :
    (build_notifications leave recipients msg idBase now).map
      LeaveNotification.reviewer = recipients := by
  unfold build_notifications newLeaveNotification
  rw [List.map_map]
  exact List.enumFrom_map_snd 0 recipients

theorem build_notifications_length (leave : LeaveApplication)
    (recipients : List Nat) (msg : String) (idBase : Nat) (now : DateTime) :
    (build_notifications leave recipients msg idBase now).length =
      recipients.length := by
  unfold build_notifications
  rw [List.length_map, List.enum_length]

theorem build_notifications_message (leave : LeaveApplication)
    (recipients : List Nat) (msg : String) (idBase : Nat) (now : DateTime)
    (n : LeaveNotification)
    (hn : n ∈ build_notifications leave recipients msg idBase now) :
    n.message = msg := by
  unfold build_notifications at hn
  obtain ⟨p, hp, rfl⟩ := List.mem_map.mp hn
  rfl

theorem recipients_to_notify_nodup (r : Option Nat) (cc : List Nat) :
    (recipients_to_notify r cc).Nodup := by
  unfold recipients_to_notify
  cases r with
  | none => exact cc.nodup_dedup
  | some x => exact cc.nodup_dedup.insert

theorem mem_recipients_to_notify (r : Option Nat) (cc : List Nat) (x : Nat) :
    x ∈ recipients_to_notify r cc ↔ (x ∈ cc ∨ r = some x) := by
  unfold recipients_to_notify
  cases r with
  | none => simp [List.mem_dedup]
  | some y =>
    simp only [List.mem_insert_iff, List.mem_dedup, Option.some.injEq]
    constructor
    · rintro (rfl | h)
      · exact Or.inr rfl
      · exact Or.inl h
    · rintro (h | rfl)
      · exact Or.inr h
      · exact Or.inl rfl

theorem fanout_spec (leave : LeaveApplication) (profile : EmployeeProfile)
    (idBase : Nat) (now : DateTime) (notifs : List LeaveNotification)
    (h : fanout leave profile idBase now = some notifs) :
    (notifs.map LeaveNotification.reviewer).Nodup ∧
    (∀ x, x ∈ notifs.map LeaveNotification.reviewer ↔
      (x ∈ leave.cc_to ∨ leave.reviewer = some x)) ∧
    (∀ n1 ∈ notifs, ∀ n2 ∈ notifs, n1.message = n2.message) := by
  unfold fanout at h
  split at h
  · exact Option.noConfusion h
  · cases Option.some.inj h
    rw [build_notifications_map_reviewer]
    refine ⟨recipients_to_notify_nodup _ _, mem_recipients_to_notify _ _, ?_⟩
    intro n1 h1 n2 h2
    rw [build_notifications_message _ _ _ _ _ _ h1,
      build_notifications_message _ _ _ _ _ _ h2]

theorem recipients_to_notify_pair (R A B : Nat) (h1 : R ≠ A) (h2 : R ≠ B)
    (h3 : A ≠ B) : recipients_to_notify (some R) [A, B] = [R, A, B] := by
  have hB : ([B] : List Nat).dedup = [B] := by
    rw [List.dedup_cons_of_not_mem (List.not_mem_nil B), List.dedup_nil]
  have hd : ([A, B] : List Nat).dedup = [A, B] := by
    rw [List.dedup_cons_of_not_mem (by simp [h3]), hB]
  simp only [recipients_to_notify]
  rw [hd, List.insert_of_not_mem (by simp [h1, h2])]

/-- C3: for every successful submission the persisted notification rows
are exactly the fan-out rows appended to the store, one per unique
recipient of {reviewer} ∪ cc_to — the recipients of the rows a fan-out
builds are pairwise distinct and are precisely the CC members together
with the reviewer, a recipient occurring in both roles getting a single
row — and all rows of one fan-out carry the identical message; in
particular, a fan-out with reviewer R and CC [A, B] where R ∉ {A, B}
creates exactly 3 rows. -/
theorem spec_C3_fanout_unique_recipients :
    (∀ leave profile idBase now notifs,
      fanout leave profile idBase now = some notifs →
      (notifs.map LeaveNotification.reviewer).Nodup ∧
      (∀ x, x ∈ notifs.map LeaveNotification.reviewer ↔
        (x ∈ leave.cc_to ∨ leave.reviewer = some x)) ∧
      (∀ n1 ∈ notifs, ∀ n2 ∈ notifs, n1.message = n2.message)) ∧
    (∀ db u ue profile body sd ed lt rsn sv nl nnb now db2 s m,
      apply_leave db u ue profile body sd ed lt rsn sv nl nnb now =
        (db2, .ok s m) →
      ∃ notifs,
        db2.leaveNotifications = db.leaveNotifications ++ notifs ∧
        (notifs.map LeaveNotification.reviewer).Nodup ∧
        (∀ n1 ∈ notifs, ∀ n2 ∈ notifs, n1.message = n2.message)) ∧
    (∀ R A B leave profile idBase now notifs,
      R ≠ A → R ≠ B → A ≠ B → leave.reviewer = some R →
      leave.cc_to = [A, B] →
      fanout leave profile idBase now = some notifs →
      notifs.length = 3) := by
  refine ⟨?_, ?_, ?_⟩
  · intro leave profile idBase now notifs hfan
    exact fanout_spec _ _ _ _ _ hfan
  · intro db u ue profile body sd ed lt rsn sv nl nnb now db2 s m heq
    unfold apply_leave at heq
    repeat' split at heq
    all_goals injection heq with hd hr
    all_goals try exact ApiResponse.noConfusion hr
    all_goals subst hd
    all_goals exact ⟨_, rfl,
      (by rw [build_notifications_map_reviewer]
          exact recipients_to_notify_nodup _ _),
      fun n1 hn1 n2 hn2 => by
        rw [build_notifications_message _ _ _ _ _ _ hn1,
          build_notifications_message _ _ _ _ _ _ hn2]⟩
  · intro R A B leave profile idBase now notifs hRA hRB hAB hrev hcc hfan
    unfold fanout at hfan
    split at hfan
    · exact Option.noConfusion hfan
    · cases Option.some.inj hfan
      rw [build_notifications_length, hrev, hcc,
        recipients_to_notify_pair R A B hRA hRB hAB]
      rfl

theorem spec_C3_witness :
    ((10 : Nat) ≠ 11 ∧ (10 : Nat) ≠ 12 ∧ (11 : Nat) ≠ 12) ∧
    (build_notifications
      ⟨7, 1, some 10, [11, 12], "Casual Leave", ⟨2025, 9, 15⟩, ⟨2025, 9, 17⟩,
       "trip", .pending, "", "", none, none⟩
      (recipients_to_notify (some 10) [11, 12])
      (get_notification_message
        ⟨7, 1, some 10, [11, 12], "Casual Leave", ⟨2025, 9, 15⟩,
         ⟨2025, 9, 17⟩, "trip", .pending, "", "", none, none⟩
        "A B" "Dev" "Eng" 3) 100 ⟨2025, 9, 14, 9, 0⟩).length = 3 :=
  ⟨⟨by decide, by decide, by decide⟩,
   spec_C3_fanout_unique_recipients.2.2 10 11 12
     ⟨7, 1, some 10, [11, 12], "Casual Leave", ⟨2025, 9, 15⟩, ⟨2025, 9, 17⟩,
      "trip", .pending, "", "", none, none⟩
     ⟨"A", "B", some "Dev", some "Eng"⟩ 100 ⟨2025, 9, 14, 9, 0⟩ _
     (by decide) (by decide) (by decide) rfl rfl (by decide)⟩

/-- C4: submitting a leave for an employee with no
EmployeeReportingManager row always fails and creates nothing — the
database is returned unchanged with an error response — and when the
request passes the self-service check (so the manager lookup is
reached) the failure is precisely the 400 configuration error. -/
theorem spec_C4_no_manager_config (db : Db) (u ue : Nat)
    (profile : EmployeeProfile) (body : String) (sd ed : Date)
    (lt rsn : String) (sv : Bool) (nl nnb : Nat) (now : DateTime)
    (hlookup : db.reportingManagers.lookup ue = none) :
    ((apply_leave db u ue profile body sd ed lt rsn sv nl nnb now).1 = db ∧
     (apply_leave db u ue profile body sd ed lt rsn sv nl nnb now).2.isErr =
       true) ∧
    (toString u = body →
      apply_leave db u ue profile body sd ed lt rsn sv nl nnb now =
        (db, .err 400
          "Reviewing manager info not configured for this employee.")) := by
  constructor
  · unfold apply_leave
    by_cases h1 : toString u ≠ body
    · rw [if_pos h1]
      exact ⟨rfl, rfl⟩
    · rw [if_neg h1, hlookup]
      exact ⟨rfl, rfl⟩
  · intro hbody
    unfold apply_leave
    rw [if_neg (not_not.mpr hbody), hlookup]

theorem spec_C4_witness :
    (Db.mk [] [] [] []).reportingManagers.lookup 1 = none ∧
    apply_leave (Db.mk [] [] [] []) 1 1 ⟨"A", "B", none, none⟩ "1"
        ⟨2025, 9, 15⟩ ⟨2025, 9, 17⟩ "Casual Leave" "trip" true 1 1
        ⟨2025, 9, 14, 9, 0⟩ =
      ((Db.mk [] [] [] []),
       .err 400 "Reviewing manager info not configured for this employee.") :=
  ⟨rfl,
   (spec_C4_no_manager_config (Db.mk [] [] [] []) 1 1 ⟨"A", "B", none, none⟩
     "1" ⟨2025, 9, 15⟩ ⟨2025, 9, 17⟩ "Casual Leave" "trip" true 1 1
     ⟨2025, 9, 14, 9, 0⟩ rfl).2 (by decide)⟩

/-- C10: listing my leaves returns exactly the caller's own
applications whose start_date lies in the current financial year — any
other stored application is omitted — where the financial year for a
today with month < 4 runs from April 1 of the previous year to
March 31 of the current year, and otherwise from April 1 of the
current year to March 31 of the next year. -/
theorem spec_C10_financial_year_filter (db : Db) (user : Nat) (today : Date)
    (res : List LeaveApplication)
    (h : get_leave_applications db user true today = .ok res) :
    (∀ l, l ∈ res ↔
      (l ∈ db.leaveApplications ∧ l.employee = user ∧
       dateLE (current_financial_year_range today).1 l.start_date = true ∧
       dateLE l.start_date (current_financial_year_range today).2 = true)) ∧
    (today.month < 4 →
      current_financial_year_range today =
        (⟨today.year - 1, 4, 1⟩, ⟨today.year, 3, 31⟩)) ∧
    (4 ≤ today.month →
      current_financial_year_range today =
        (⟨today.year, 4, 1⟩, ⟨today.year + 1, 3, 31⟩)) := by
  refine ⟨?_, ?_, ?_⟩
  · unfold get_leave_applications at h
    rw [if_neg (by simp)] at h
    cases Except.ok.inj h
    intro l
    rw [List.mem_filter]
    simp [Bool.and_eq_true, beq_iff_eq, and_assoc]
  · intro hm
    unfold current_financial_year_range
    rw [if_pos hm]
  · intro hm
    unfold current_financial_year_range
    rw [if_neg (by omega)]

theorem spec_C10_witness :
    get_leave_applications (Db.mk [] [] [] []) 1 true ⟨2025, 10, 12⟩ =
      .ok [] ∧
    (4 ≤ (2025, 10, 12).2.1) ∧
    current_financial_year_range ⟨2025, 10, 12⟩ =
      (⟨2025, 4, 1⟩, ⟨2026, 3, 31⟩) :=
  ⟨rfl, by decide,
   (spec_C10_financial_year_filter (Db.mk [] [] [] []) 1 ⟨2025, 10, 12⟩ []
     rfl).2.2 (by decide)⟩
